import Mathlib

/-!
Shallow embedding of the accelerator-device management layer in
`caffe2/core/common_gpu.h`, together with theorems settling the spec claims
about it.

Machine `int` values are modelled as `Int` with explicit 32-bit range checks
where overflow matters; fallible computations return `Option`; the runtime's
fatal-on-error contract is modelled by an explicit `CheckOutcome` result.
Functions whose implementation lives in `common_gpu.cc` or `logging.h`
(not part of the analysed sources) are modelled from the spec and marked so.
-/

namespace caffe2

/-! ## Constants (common_gpu.h lines 33, 194, 200) -/

/-- The maximum number of GPUs that caffe2 recognizes
(`#define CAFFE2_COMPILE_TIME_MAX_GPUS 8`, common_gpu.h line 33). -/
def CAFFE2_COMPILE_TIME_MAX_GPUS : Nat := 8

/-- The number of cuda threads to use (`constexpr int CAFFE_CUDA_NUM_THREADS = 512`,
common_gpu.h line 194). -/
def CAFFE_CUDA_NUM_THREADS : Int := 512

/-- The maximum number of blocks to use in the default kernel call
(`constexpr int CAFFE_MAXIMUM_NUM_BLOCKS = 4096`, common_gpu.h line 200). -/
def CAFFE_MAXIMUM_NUM_BLOCKS : Int := 4096

/-! ## 32-bit signed int arithmetic -/

/-- Largest value of a C++ 32-bit signed `int`. -/
def INT_MAX : Int := 2147483647

/-- Smallest value of a C++ 32-bit signed `int`. -/
def INT_MIN : Int := -2147483648

/-- Signed 32-bit addition: `some (a + b)` when the mathematical sum is
representable as an `int`, `none` when the addition overflows (undefined
behaviour in C++). -/
def checkedAdd (a b : Int) : Option Int :=
  if INT_MIN ≤ a + b ∧ a + b ≤ INT_MAX then some (a + b) else none

/-! ## CAFFE_GET_BLOCKS (common_gpu.h lines 205-208) -/

/-- `inline int CAFFE_GET_BLOCKS(const int N)` from common_gpu.h lines 205-208:
`std::min((N + CAFFE_CUDA_NUM_THREADS - 1) / CAFFE_CUDA_NUM_THREADS,
CAFFE_MAXIMUM_NUM_BLOCKS)`.  The C++ expression associates as
`(N + CAFFE_CUDA_NUM_THREADS) - 1`, and each intermediate addition is a
signed `int` operation, so each step goes through `checkedAdd`; `/` on
`int` truncates toward zero, which is `Int.tdiv`. -/
def CAFFE_GET_BLOCKS (N : Int) : Option Int := do
  let t1 ← checkedAdd N CAFFE_CUDA_NUM_THREADS
  let t2 ← checkedAdd t1 (-1)
  pure (min (t2.tdiv CAFFE_CUDA_NUM_THREADS) CAFFE_MAXIMUM_NUM_BLOCKS)

/-- Spec-side definition, following the spec's words for refinement
comparison: `ceil(N / ThreadsPerBlock)` clamped to at most `MaxBlocks`,
with `ThreadsPerBlock = 512` and `MaxBlocks = 4096` (`⌈/⌉` is Nat ceiling
division). -/
def ComputeBlockCountSpec (N : Nat) : Nat :=
  min (N ⌈/⌉ 512) 4096

/-! ## The fatal-on-error contract (common_gpu.h lines 112-163) -/

/-- Result of one guarded runtime call: either control returns normally,
or the process is terminated with the logged message parts. -/
inductive CheckOutcome where
  | ok : CheckOutcome
  | fatal (msg : List String) : CheckOutcome
deriving DecidableEq

/-- Success sentinel of the cuda runtime (`cudaError_t`). -/
def cudaSuccess : Nat := 0

/-- Success sentinel of the cuda driver (`CUresult`). -/
def CUDA_SUCCESS : Nat := 0

/-- Success sentinel of cublas (`cublasStatus_t`). -/
def CUBLAS_STATUS_SUCCESS : Nat := 0

/-- Success sentinel of curand (`curandStatus_t`). -/
def CURAND_STATUS_SUCCESS : Nat := 0

/-- Modelled from the spec: `CAFFE_ENFORCE_EQ` comes from
`caffe2/core/logging.h`, which is not among the analysed sources.  Per the
spec's fatal-on-error policy it compares the two values and, when they
differ, logs the given message parts and terminates the process
immediately; on equality control returns normally. -/
def CAFFE_ENFORCE_EQ (lhs rhs : Nat) (msg : List String) : CheckOutcome :=
  if lhs = rhs then .ok else .fatal msg

/-- Modelled from the spec: `LOG(FATAL)` comes from the logging subsystem,
which is not among the analysed sources; it writes the message and
terminates the process. -/
def LOG_FATAL (msg : List String) : CheckOutcome :=
  .fatal msg

/-- `CUDA_CHECK(condition)` from common_gpu.h lines 112-124: evaluates the
condition to a `cudaError_t` and runs
`CAFFE_ENFORCE_EQ(error, cudaSuccess, "Error at: ", __FILE__, ":",
__LINE__, ": ", cudaGetErrorString(error))`.  The translator
`cudaGetErrorString` is the opaque vendor API, passed as a parameter. -/
def CUDA_CHECK (cudaGetErrorString : Nat → String)
    (file : String) (line : Nat) (error : Nat) : CheckOutcome :=
  CAFFE_ENFORCE_EQ error cudaSuccess
    ["Error at: ", file, ":", toString line, ": ", cudaGetErrorString error]

/-- `CUDA_DRIVERAPI_CHECK(condition)` from common_gpu.h lines 126-135:
if the result differs from `CUDA_SUCCESS`, fetches the error name via
`cuGetErrorName` and runs `LOG(FATAL)` with file, line and the name. -/
def CUDA_DRIVERAPI_CHECK (cuGetErrorName : Nat → String)
    (file : String) (line : Nat) (result : Nat) : CheckOutcome :=
  if result ≠ CUDA_SUCCESS then
    LOG_FATAL ["Error at: ", file, ":", toString line, ": ", cuGetErrorName result]
  else .ok

/-- `CUBLAS_CHECK(condition)` from common_gpu.h lines 137-149: runs
`CAFFE_ENFORCE_EQ(status, CUBLAS_STATUS_SUCCESS, "Error at: ", __FILE__,
":", __LINE__, ": ", ::caffe2::cublasGetErrorString(status))`.  The
translator `cublasGetErrorString` is implemented in common_gpu.cc (not
among the analysed sources), so it is passed as a parameter. -/
def CUBLAS_CHECK (cublasGetErrorString : Nat → String)
    (file : String) (line : Nat) (status : Nat) : CheckOutcome :=
  CAFFE_ENFORCE_EQ status CUBLAS_STATUS_SUCCESS
    ["Error at: ", file, ":", toString line, ": ", cublasGetErrorString status]

/-- `CURAND_CHECK(condition)` from common_gpu.h lines 151-163: runs
`CAFFE_ENFORCE_EQ(status, CURAND_STATUS_SUCCESS, "Error at: ", __FILE__,
":", __LINE__, ": ", ::caffe2::curandGetErrorString(status))`. -/
def CURAND_CHECK (curandGetErrorString : Nat → String)
    (file : String) (line : Nat) (status : Nat) : CheckOutcome :=
  CAFFE_ENFORCE_EQ status CURAND_STATUS_SUCCESS
    ["Error at: ", file, ":", toString line, ": ", curandGetErrorString status]

/-! ## Device-count and default-device state -/

/-- `inline bool HasCudaGPU() { return NumCudaDevices() > 0; }`
(common_gpu.h line 56).  `NumCudaDevices()` is implemented in
common_gpu.cc; its return value is the parameter. -/
def HasCudaGPU (numCudaDevices : Int) : Bool :=
  decide (numCudaDevices > 0)

/-- Modelled from the spec: the process-wide default-device storage behind
`SetDefaultGPUID` / `GetDefaultGPUID` lives in common_gpu.cc, which is not
among the analysed sources.  The spec's DefaultDeviceState holds a single
mutable default device id, initially 0. -/
structure DefaultDeviceState where
  gDefaultGPUID : Int
deriving DecidableEq

/-- Modelled from the spec: the default device id is 0 before the first
explicit set. -/
def initDefaultDeviceState : DefaultDeviceState :=
  ⟨0⟩

/-- Modelled from the spec: `SetDefaultGPUID(const int deviceid)` stores the
given id as the process-wide default with no validation against the device
count (common_gpu.h lines 58-65 declare it; the body is in common_gpu.cc). -/
def SetDefaultGPUID (deviceid : Int) (_s : DefaultDeviceState) : DefaultDeviceState :=
  ⟨deviceid⟩

/-- Modelled from the spec: `GetDefaultGPUID()` returns the stored default
device id (common_gpu.h line 70 declares it; the body is in common_gpu.cc). -/
def GetDefaultGPUID (s : DefaultDeviceState) : Int :=
  s.gDefaultGPUID

/-! ## DeviceGuard (common_gpu.h lines 210-225)

The cuda runtime's thread-local current device is modelled as explicit
state; `setDeviceCalls` counts the `cudaSetDevice` calls issued, so that
frame-effect claims about redundant switches are statable.  `cudaSetDevice`
failures are fatal through `CUDA_CHECK`, so a state transition only exists
on the successful path; the model takes that path. -/

/-- State of the cuda runtime visible to this layer: the thread-local
current device and a count of `cudaSetDevice` calls issued so far. -/
structure CudaState where
  current : Int
  setDeviceCalls : Nat
deriving DecidableEq

/-- Successful `cudaSetDevice(d)`: switches the current device to `d` and is
counted as one device-switch call. -/
def cudaSetDevice (d : Int) (s : CudaState) : CudaState :=
  ⟨d, s.setDeviceCalls + 1⟩

/-- `GetCurrentGPUID()` (declared at common_gpu.h line 75): a simple wrapper
around `cudaGetDevice()`, reading the thread-local current device. -/
def GetCurrentGPUID (s : CudaState) : Int :=
  s.current

/-- `class DeviceGuard` (common_gpu.h lines 210-225): its single data member
is `int previous_`. -/
structure DeviceGuard where
  previous_ : Int
deriving DecidableEq

/-- The constructor `DeviceGuard(int newDevice)` (common_gpu.h lines
212-217): records `previous_ = GetCurrentGPUID()`, then
`if (previous_ != newDevice) CUDA_CHECK(cudaSetDevice(newDevice));`.
Returns the constructed guard and the state after construction. -/
def DeviceGuard.construct (newDevice : Int) (s : CudaState) :
    DeviceGuard × CudaState :=
  let previous_ := GetCurrentGPUID s
  if previous_ ≠ newDevice then (⟨previous_⟩, cudaSetDevice newDevice s)
  else (⟨previous_⟩, s)

/-- The destructor `~DeviceGuard()` (common_gpu.h lines 219-221):
unconditionally `CUDA_CHECK(cudaSetDevice(previous_));`. -/
def DeviceGuard.destruct (g : DeviceGuard) (s : CudaState) : CudaState :=
  cudaSetDevice g.previous_ s

/-! ## GetCudaPeerAccessPattern (declared at common_gpu.h lines 92-99) -/

/-- Modelled from the spec: one peer-access query for the ordered pair
`(i, j)`.  `q i j = none` models an erroring underlying query; the diagonal
is defined true without a query.  One row of the pattern for device `i`
over the device indices `js`, `none` as soon as any query errors. -/
def peerRow (q : Nat → Nat → Option Bool) (i : Nat) :
    List Nat → Option (List Bool)
  | [] => some []
  | j :: js => do
    let v ← if i = j then pure true else q i j
    let rest ← peerRow q i js
    pure (v :: rest)

/-- Modelled from the spec: the rows of the peer-access pattern for the
device indices `is`, each row ranging over all `n` devices; `none` as soon
as any query errors. -/
def peerRows (q : Nat → Nat → Option Bool) (n : Nat) :
    List Nat → Option (List (List Bool))
  | [] => some []
  | i :: is => do
    let row ← peerRow q i (List.range n)
    let rest ← peerRows q n is
    pure (row :: rest)

/-- Modelled from the spec: `GetCudaPeerAccessPattern` is implemented in
common_gpu.cc, which is not among the analysed sources.  Per the spec and
the header's doc comment (common_gpu.h lines 92-99) it queries peer access
for every ordered pair of live devices, and "returns false if anything
wrong happens during the query" — it returns a failure indicator to the
caller instead of using the fatal-on-error contract.  The result is the
control outcome, the returned boolean, and the pattern written to the out
parameter. -/
def GetCudaPeerAccessPattern (n : Nat) (q : Nat → Nat → Option Bool) :
    CheckOutcome × Bool × List (List Bool) :=
  match peerRows q n (List.range n) with
  | some pattern => (.ok, true, pattern)
  | none => (.ok, false, [])

/-- Shorthand for the fatal-on-error observable behaviour: the call does not
return normally, and the process terminates with a logged message that
contains the source file, the line, and the translated error string. -/
def diesFatally (outcome : CheckOutcome) (file : String) (line : Nat)
    (translated : String) : Prop :=
  outcome ≠ CheckOutcome.ok ∧
    ∃ msg, outcome = CheckOutcome.fatal msg ∧
      file ∈ msg ∧ toString line ∈ msg ∧ translated ∈ msg

/-! ## Theorems -/

/-- C8: the fixed maximum number of devices this layer recognizes is 8:
`CAFFE2_COMPILE_TIME_MAX_GPUS` equals 8, bounding every valid DeviceId. -/
theorem compile_time_max_gpus_eq_eight : CAFFE2_COMPILE_TIME_MAX_GPUS = 8 :=
  rfl

/-- C6: `HasCudaGPU` returns true exactly when `NumCudaDevices()` is greater
than zero, for every value the runtime's device count can take. -/
theorem hasCudaGPU_iff_numCudaDevices_pos :
    ∀ numCudaDevices : Int,
      HasCudaGPU numCudaDevices = true ↔ 0 < numCudaDevices := by
  intro n
  simp [HasCudaGPU]

/-- C7: default-device storage round-trip: `SetDefaultGPUID(k)` followed by
`GetDefaultGPUID()` returns `k` from any prior state, with no validation of
`k`; before the first explicit set, `GetDefaultGPUID()` returns 0. -/
theorem defaultGPUID_roundtrip :
    (∀ (k : Int) (s : DefaultDeviceState),
        GetDefaultGPUID (SetDefaultGPUID k s) = k)
    ∧ GetDefaultGPUID initDefaultDeviceState = 0 :=
  ⟨fun _ _ => rfl, rfl⟩

/-- C1: DeviceGuard round-trip: for every starting state `s` (so starting
current device `GetCurrentGPUID s`), every target `t`, and every body (an
arbitrary state transformer, covering anything the guarded scope does to
the current device), running the destructor after the body restores the
starting current device. -/
theorem deviceGuard_roundtrip :
    ∀ (t : Int) (s : CudaState) (body : CudaState → CudaState),
      GetCurrentGPUID
          (DeviceGuard.destruct (DeviceGuard.construct t s).1
            (body (DeviceGuard.construct t s).2))
        = GetCurrentGPUID s := by
  intro t s body
  simp only [DeviceGuard.destruct, cudaSetDevice, GetCurrentGPUID,
    DeviceGuard.construct]
  split <;> rfl

/-- C9: the DeviceGuard destructor unconditionally issues one `cudaSetDevice`
call (first conjunct: after any construction, destruction adds exactly one
switch call), even when the constructor performed no switch because the
target equalled the current device (second conjunct: in that case the whole
lifetime issues exactly one call, at destruction). -/
theorem deviceGuard_destructor_always_switches :
    ∀ (t : Int) (s : CudaState),
      (DeviceGuard.destruct (DeviceGuard.construct t s).1
            (DeviceGuard.construct t s).2).setDeviceCalls
          = ((DeviceGuard.construct t s).2).setDeviceCalls + 1
      ∧ (GetCurrentGPUID s = t →
          (DeviceGuard.destruct (DeviceGuard.construct t s).1
                (DeviceGuard.construct t s).2).setDeviceCalls
            = s.setDeviceCalls + 1) := by
  intro t s
  constructor
  · rfl
  · intro h
    simp only [GetCurrentGPUID] at h
    simp [DeviceGuard.destruct, cudaSetDevice, DeviceGuard.construct,
      GetCurrentGPUID, h]

/-- C9 witness: at target 3 from current device 3 with no prior calls, the
guard lifetime performs exactly one device-switch call. -/
theorem deviceGuard_destructor_always_switches_witness :
    (DeviceGuard.destruct (DeviceGuard.construct 3 ⟨3, 0⟩).1
          (DeviceGuard.construct 3 ⟨3, 0⟩).2).setDeviceCalls
        = (0 : Nat) + 1 :=
  (deviceGuard_destructor_always_switches 3 ⟨3, 0⟩).2 rfl

/-- C4 counterexample: with current device 0 and no calls issued yet,
constructing and destroying `DeviceGuard(0)` issues one `cudaSetDevice`
call (from the unconditional destructor), not zero. -/
theorem deviceGuard_lifetime_counterexample :
    GetCurrentGPUID ⟨0, 0⟩ = 0
    ∧ (DeviceGuard.destruct (DeviceGuard.construct 0 ⟨0, 0⟩).1
          (DeviceGuard.construct 0 ⟨0, 0⟩).2).setDeviceCalls ≠ 0 := by
  constructor
  · rfl
  · decide

/-- C4 amended: constructing `DeviceGuard(c)` when the current device is `c`
issues zero device-switch calls at construction; the destructor then
unconditionally issues one restoring call, so the guard's full lifetime
issues exactly one device-switch call, not zero. -/
theorem deviceGuard_noop_construction :
    ∀ (c : Int) (n : Nat),
      ((DeviceGuard.construct c ⟨c, n⟩).2).setDeviceCalls = n
      ∧ (DeviceGuard.destruct (DeviceGuard.construct c ⟨c, n⟩).1
            (DeviceGuard.construct c ⟨c, n⟩).2).setDeviceCalls = n + 1 := by
  intro c n
  constructor
  · simp [DeviceGuard.construct, GetCurrentGPUID]
  · simp [DeviceGuard.destruct, cudaSetDevice, DeviceGuard.construct,
      GetCurrentGPUID]

/-- C3: every non-success status fed through `CUDA_CHECK`,
`CUDA_DRIVERAPI_CHECK`, `CUBLAS_CHECK` or `CURAND_CHECK` terminates the
process after logging a message containing the source file, the line and
the translated error string (each wrapper's translator is arbitrary), and
is never returned to the caller as a recoverable value.  All four success
sentinels are the numeric value 0. -/
theorem fatal_check_terminates_with_location :
    ∀ (trRuntime trDriver trBlas trRand : Nat → String)
      (file : String) (line : Nat) (e : Nat), e ≠ 0 →
      diesFatally (CUDA_CHECK trRuntime file line e) file line (trRuntime e)
      ∧ diesFatally (CUDA_DRIVERAPI_CHECK trDriver file line e) file line
          (trDriver e)
      ∧ diesFatally (CUBLAS_CHECK trBlas file line e) file line (trBlas e)
      ∧ diesFatally (CURAND_CHECK trRand file line e) file line (trRand e) := by
  intro trRuntime trDriver trBlas trRand file line e he
  simp only [diesFatally, CUDA_CHECK, CUDA_DRIVERAPI_CHECK, CUBLAS_CHECK,
    CURAND_CHECK, CAFFE_ENFORCE_EQ, LOG_FATAL, cudaSuccess, CUDA_SUCCESS,
    CUBLAS_STATUS_SUCCESS, CURAND_STATUS_SUCCESS, ne_eq, he, not_false_iff,
    if_false, if_true, ite_true, ite_false, if_neg he, if_pos]
  refine ⟨⟨by simp, _, rfl, by simp, by simp, by simp⟩,
    ⟨by simp, _, rfl, by simp, by simp, by simp⟩,
    ⟨by simp, _, rfl, by simp, by simp, by simp⟩,
    ⟨by simp, _, rfl, by simp, by simp, by simp⟩⟩

/-- C3 witness: status code 1 through each wrapper, with a concrete
translator, file "common_gpu.h" and line 215, dies fatally logging the
location and the translated string. -/
theorem fatal_check_terminates_with_location_witness :
    diesFatally (CUDA_CHECK (fun _ => "unknown error") "common_gpu.h" 215 1)
        "common_gpu.h" 215 "unknown error"
    ∧ diesFatally
        (CUDA_DRIVERAPI_CHECK (fun _ => "unknown error") "common_gpu.h" 215 1)
        "common_gpu.h" 215 "unknown error"
    ∧ diesFatally (CUBLAS_CHECK (fun _ => "unknown error") "common_gpu.h" 215 1)
        "common_gpu.h" 215 "unknown error"
    ∧ diesFatally (CURAND_CHECK (fun _ => "unknown error") "common_gpu.h" 215 1)
        "common_gpu.h" 215 "unknown error" :=
  fatal_check_terminates_with_location (fun _ => "unknown error")
    (fun _ => "unknown error") (fun _ => "unknown error")
    (fun _ => "unknown error") "common_gpu.h" 215 1 (by decide)

/-- A row of the peer-access pattern fails exactly when some off-diagonal
query in it errors. -/
lemma peerRow_eq_none_iff (q : Nat → Nat → Option Bool) (i : Nat)
    (js : List Nat) :
    peerRow q i js = none ↔ ∃ j ∈ js, i ≠ j ∧ q i j = none := by
  induction js with
  | nil => simp [peerRow]
  | cons j js ih =>
    by_cases hij : i = j
    · subst hij
      cases hr : peerRow q i js with
      | none => simp [peerRow, hr, ih.mp hr]
      | some rest =>
        have : ¬ peerRow q i js = none := by simp [hr]
        simp only [ih] at this
        simp only [peerRow, hr, if_pos rfl]
        simp [this]
    · cases hq : q i j with
      | none => simp [peerRow, hq, hij]
      | some v =>
        cases hr : peerRow q i js with
        | none => simp [peerRow, hq, hij, hr, ih.mp hr]
        | some rest =>
          have : ¬ peerRow q i js = none := by simp [hr]
          simp only [ih] at this
          simp only [peerRow, hq, hr, if_neg hij]
          simp [this, hq]

/-- The whole peer-access pattern fails exactly when some row fails. -/
lemma peerRows_eq_none_iff (q : Nat → Nat → Option Bool) (n : Nat)
    (is : List Nat) :
    peerRows q n is = none ↔ ∃ i ∈ is, peerRow q i (List.range n) = none := by
  induction is with
  | nil => simp [peerRows]
  | cons i is ih =>
    cases hr : peerRow q i (List.range n) with
    | none => simp [peerRows, hr]
    | some row =>
      cases hs : peerRows q n is with
      | none => simp [peerRows, hr, hs, ih.mp hs]
      | some rows =>
        have : ¬ peerRows q n is = none := by simp [hs]
        simp only [ih] at this
        simp only [peerRows, hr, hs]
        simp [this, hr]

/-- C5: `GetCudaPeerAccessPattern` never invokes the fatal-on-error contract
(first conjunct: the control outcome is always a normal return), and the
boolean it hands to the caller is false exactly when some underlying
off-diagonal peer-access query errors. -/
theorem getCudaPeerAccessPattern_best_effort :
    ∀ (n : Nat) (q : Nat → Nat → Option Bool),
      (GetCudaPeerAccessPattern n q).1 = CheckOutcome.ok
      ∧ ((GetCudaPeerAccessPattern n q).2.1 = false ↔
          ∃ i j, i < n ∧ j < n ∧ i ≠ j ∧ q i j = none) := by
  intro n q
  have key : peerRows q n (List.range n) = none ↔
      ∃ i j, i < n ∧ j < n ∧ i ≠ j ∧ q i j = none := by
    rw [peerRows_eq_none_iff]
    constructor
    · rintro ⟨i, hi, hrow⟩
      rcases (peerRow_eq_none_iff q i (List.range n)).mp hrow with
        ⟨j, hj, hij, hq⟩
      exact ⟨i, j, List.mem_range.mp hi, List.mem_range.mp hj, hij, hq⟩
    · rintro ⟨i, j, hi, hj, hij, hq⟩
      exact ⟨i, List.mem_range.mpr hi,
        (peerRow_eq_none_iff q i (List.range n)).mpr
          ⟨j, List.mem_range.mpr hj, hij, hq⟩⟩
  cases hm : peerRows q n (List.range n) with
  | none =>
    refine ⟨by simp [GetCudaPeerAccessPattern, hm], ?_⟩
    simp only [GetCudaPeerAccessPattern, hm]
    simpa using key.mp hm
  | some pattern =>
    refine ⟨by simp [GetCudaPeerAccessPattern, hm], ?_⟩
    simp only [GetCudaPeerAccessPattern, hm]
    have : ¬ ∃ i j, i < n ∧ j < n ∧ i ≠ j ∧ q i j = none := by
      intro hex
      rw [← key] at hex
      simp [hm] at hex
    simp only [show (true = false) = False by simp, false_iff]
    exact fun hex => this hex

/-- C5 witness: with two devices and a query that always errors, the result
outcome is a normal return and the returned boolean is false. -/
theorem getCudaPeerAccessPattern_best_effort_witness :
    (GetCudaPeerAccessPattern 2 (fun _ _ => none)).1 = CheckOutcome.ok
    ∧ (GetCudaPeerAccessPattern 2 (fun _ _ => none)).2.1 = false :=
  ⟨(getCudaPeerAccessPattern_best_effort 2 (fun _ _ => none)).1,
    (getCudaPeerAccessPattern_best_effort 2 (fun _ _ => none)).2.mpr
      ⟨0, 1, by decide, by decide, by decide, rfl⟩⟩

/-- Truncating division agrees with `Nat` division on `Nat` casts. -/
lemma natCast_tdiv (m n : Nat) :
    Int.tdiv (m : Int) (n : Int) = ((m / n : Nat) : Int) :=
  rfl

/-- With no overflow, the first intermediate addition of `CAFFE_GET_BLOCKS`
produces `N + 512`. -/
lemma checkedAdd_threads (N : Int) (h0 : 0 ≤ N) (h : N ≤ INT_MAX - 512) :
    checkedAdd N CAFFE_CUDA_NUM_THREADS = some (N + 512) := by
  simp only [INT_MAX] at h
  simp only [checkedAdd, CAFFE_CUDA_NUM_THREADS, INT_MIN, INT_MAX]
  rw [if_pos ⟨by omega, by omega⟩]

/-- With no overflow, the second intermediate addition of `CAFFE_GET_BLOCKS`
produces `N + 511`. -/
lemma checkedAdd_minus_one (N : Int) (h0 : 0 ≤ N) (h : N ≤ INT_MAX - 512) :
    checkedAdd (N + 512) (-1) = some (N + 511) := by
  simp only [INT_MAX] at h
  have heq : N + 512 + (-1) = N + 511 := by ring
  simp only [checkedAdd, INT_MIN, INT_MAX, heq]
  rw [if_pos ⟨by omega, by omega⟩]

/-- In the overflow-free range, `CAFFE_GET_BLOCKS` reduces to clamped
truncating division of `N + 511`. -/
lemma caffe_get_blocks_eval (N : Int) (h0 : 0 ≤ N) (h : N ≤ INT_MAX - 512) :
    CAFFE_GET_BLOCKS N = some (min ((N + 511).tdiv 512) 4096) := by
  simp only [CAFFE_GET_BLOCKS, CAFFE_CUDA_NUM_THREADS,
    CAFFE_MAXIMUM_NUM_BLOCKS]
  rw [show checkedAdd N 512 = some (N + 512) from checkedAdd_threads N h0 h]
  simp only [Option.bind_eq_bind, Option.some_bind]
  rw [checkedAdd_minus_one N h0 h]
  simp

/-- C2 amended: for every non-negative integer `N` small enough that the
intermediate `int` additions do not overflow (`N ≤ INT_MAX - 512`),
`CAFFE_GET_BLOCKS` returns exactly the spec's value
`min(ceil(N / 512), 4096)`; and the spec's five enumerated sample points
hold. -/
theorem caffe_get_blocks_matches_spec :
    (∀ N : Nat, (N : Int) ≤ INT_MAX - 512 →
        CAFFE_GET_BLOCKS (N : Int)
          = some ((ComputeBlockCountSpec N : Nat) : Int))
    ∧ CAFFE_GET_BLOCKS 0 = some 0
    ∧ CAFFE_GET_BLOCKS 512 = some 1
    ∧ CAFFE_GET_BLOCKS 513 = some 2
    ∧ CAFFE_GET_BLOCKS (512 * 4096) = some 4096
    ∧ CAFFE_GET_BLOCKS (512 * 4096 + 1) = some 4096 := by
  refine ⟨?_, by decide, by decide, by decide, by decide, by decide⟩
  intro N hN
  rw [caffe_get_blocks_eval (N : Int) (Int.natCast_nonneg N) hN]
  have hcast : (N : Int) + 511 = ((N + 511 : Nat) : Int) := by push_cast; ring
  have h512 : (512 : Int) = ((512 : Nat) : Int) := rfl
  rw [hcast, h512, natCast_tdiv]
  simp only [ComputeBlockCountSpec, Nat.ceilDiv_eq_add_pred_div]
  have harg : N + 512 - 1 = N + 511 := by omega
  rw [harg]
  push_cast
  rfl

/-- C2 witness: at `N = 513` the code equals the spec value. -/
theorem caffe_get_blocks_matches_spec_witness :
    CAFFE_GET_BLOCKS ((513 : Nat) : Int)
      = some ((ComputeBlockCountSpec 513 : Nat) : Int) :=
  caffe_get_blocks_matches_spec.1 513 (by decide)

/-- C2 counterexample: at the non-negative `int` input `N = INT_MAX =
2147483647` the intermediate addition overflows, so the code has no defined
result, while the claimed value `min(ceil(N / 512), 4096)` is `4096`; the
claim fails there. -/
theorem caffe_get_blocks_int_max_counterexample :
    CAFFE_GET_BLOCKS ((2147483647 : Nat) : Int) = none
    ∧ ComputeBlockCountSpec 2147483647 = 4096
    ∧ CAFFE_GET_BLOCKS ((2147483647 : Nat) : Int)
        ≠ some ((ComputeBlockCountSpec 2147483647 : Nat) : Int) := by
  decide

/-- C10 amended: `CAFFE_GET_BLOCKS` computes `(N + 512) - 1` left to right
in signed `int` arithmetic, so for every `int` N with
`0 ≤ N ≤ INT_MAX - 512` no intermediate addition overflows and the result
lies in `[0, 4096]`, while for `INT_MAX - 512 < N ≤ INT_MAX` already the
first addition `N + 512` overflows the signed `int` range. -/
theorem caffe_get_blocks_overflow_analysis :
    ∀ N : Int, 0 ≤ N →
      (N ≤ INT_MAX - 512 →
        ∃ r, CAFFE_GET_BLOCKS N = some r ∧ 0 ≤ r ∧ r ≤ 4096)
      ∧ (INT_MAX - 512 < N → N ≤ INT_MAX →
        checkedAdd N CAFFE_CUDA_NUM_THREADS = none
        ∧ CAFFE_GET_BLOCKS N = none) := by
  intro N h0
  constructor
  · intro h
    refine ⟨min ((N + 511).tdiv 512) 4096, caffe_get_blocks_eval N h0 h,
      le_min (Int.tdiv_nonneg (by omega) (by norm_num)) (by norm_num),
      min_le_right _ _⟩
  · intro hlt _hle
    have hnone : checkedAdd N CAFFE_CUDA_NUM_THREADS = none := by
      simp only [INT_MAX] at hlt
      simp only [checkedAdd, CAFFE_CUDA_NUM_THREADS, INT_MIN, INT_MAX]
      rw [if_neg]
      intro hcon
      omega
    refine ⟨hnone, ?_⟩
    simp only [CAFFE_GET_BLOCKS, hnone, Option.bind_eq_bind,
      Option.none_bind]

/-- C10 witness: both regimes at concrete inputs: `N = 1024` is
overflow-free with an in-range result, and at `N = INT_MAX` the first
addition overflows. -/
theorem caffe_get_blocks_overflow_analysis_witness :
    (∃ r, CAFFE_GET_BLOCKS 1024 = some r ∧ 0 ≤ r ∧ r ≤ 4096)
    ∧ (checkedAdd 2147483647 CAFFE_CUDA_NUM_THREADS = none
       ∧ CAFFE_GET_BLOCKS 2147483647 = none) :=
  ⟨(caffe_get_blocks_overflow_analysis 1024 (by decide)).1 (by decide),
    (caffe_get_blocks_overflow_analysis 2147483647 (by decide)).2
      (by decide) (by decide)⟩

/-- C10 counterexample: `N = INT_MAX - 511 = 2147483136` lies inside the
claim's asserted overflow-free region `0 ≤ N ≤ INT_MAX - 511`, yet the
code's first intermediate addition `N + 512` already overflows the signed
`int` range (the expression associates as `(N + 512) - 1`), so there is no
result in `[0, 4096]` at this input. -/
theorem caffe_get_blocks_boundary_counterexample :
    (0 : Int) ≤ 2147483136
    ∧ (2147483136 : Int) = INT_MAX - 511
    ∧ checkedAdd 2147483136 CAFFE_CUDA_NUM_THREADS = none
    ∧ CAFFE_GET_BLOCKS 2147483136 = none := by
  decide

end caffe2
